import Mathlib

/-!
Shallow embedding of the repository's rate limiter, auth session callback,
server requester, cached API client, logout bridge and auth orchestrator,
with theorems settling the frozen claims about them.

Conventions: JavaScript `Map` objects are modelled as association lists with
distinct keys; timestamps (`Date.now()`) are `Int` milliseconds passed in
explicitly; thrown exceptions are `Except` errors; network effects are
oracles passed as arguments.
-/

set_option autoImplicit false

namespace Spec2Proof

/-! ## Association-list operations modelling JavaScript `Map` -/

/-- Lookup modelling `Map.get`. -/
def assocFind {α : Type} (st : List (String × α)) (k : String) : Option α :=
  match st with
  | [] => none
  | (k', v) :: rest => if k' = k then some v else assocFind rest k

/-- Deletion modelling `Map.delete`. -/
def assocErase {α : Type} (st : List (String × α)) (k : String) : List (String × α) :=
  match st with
  | [] => []
  | (k', v) :: rest => if k' = k then rest else (k', v) :: assocErase rest k

/-- Update modelling `Map.set`: replace in place, or append a new entry. -/
def assocSet {α : Type} (st : List (String × α)) (k : String) (v : α) : List (String × α) :=
  match st with
  | [] => [(k, v)]
  | (k', v') :: rest => if k' = k then (k, v) :: rest else (k', v') :: assocSet rest k v

theorem assocFind_set_self {α : Type} (st : List (String × α)) (k : String) (v : α) :
    assocFind (assocSet st k v) k = some v := by
  induction st with
  | nil => simp [assocSet, assocFind]
  | cons hd tl ih =>
    obtain ⟨k', v'⟩ := hd
    by_cases h : k' = k <;> simp [assocSet, assocFind, h, ih]

/-! ## Rate limiter (`utils/rate-limit.js`)

The module keeps one shared `attempts` Map from token to
`{ count, lastAttempt, windowStart }`.  `rateLimit(options)` closes over
`interval` and `uniqueTokenPerInterval` and returns `check` and `getStatus`. -/

/-- An entry of the `attempts` map. -/
structure RLEntry where
  count : Nat
  lastAttempt : Int
  windowStart : Int
deriving DecidableEq, Repr

/-- The module-level `attempts` map. -/
abbrev RLState := List (String × RLEntry)

/-- The options closed over by `rateLimit`. -/
structure RLConfig where
  interval : Int
  uniqueTokenPerInterval : Nat
deriving DecidableEq, Repr

/-- The two `throw new Error(...)` sites of `check`. -/
inductive RLError where
  | tooManyUniqueTokens
  | rateLimitExceeded (count : Nat) (limit : Nat) (resetTime : Int)
deriving DecidableEq, Repr

/-- The value returned by a successful `check` (and intended from `getStatus`). -/
structure RLResult where
  count : Nat
  remaining : Int
  resetTime : Int
deriving DecidableEq, Repr

/-- The bounded stale-entry sweep run when the map reaches
`uniqueTokenPerInterval`: iterate the entries in order, delete entries with
`lastAttempt < windowStart`, and break once the deletion counter exceeds 100. -/
def rlCleanup (st : RLState) (windowStart : Int) (cleaned : Nat) : RLState :=
  match st with
  | [] => []
  | (k, v) :: rest =>
    if v.lastAttempt < windowStart then
      if 100 < cleaned + 1 then rest
      else rlCleanup rest windowStart (cleaned + 1)
    else (k, v) :: rlCleanup rest windowStart cleaned

/-- `check(limit, token)` at time `now` over map `st`: eagerly drop a stale
entry for `token`, enforce the unique-token cap, then reset-or-increment the
entry, store it, and either throw `rateLimitExceeded` (count past `limit`)
or return the count, remaining and reset time. -/
def check (cfg : RLConfig) (limit : Nat) (token : String) (now : Int) (st : RLState) :
    Except RLError RLResult × RLState :=
  let windowStart := now - cfg.interval
  let st1 :=
    match assocFind st token with
    | some e => if e.lastAttempt < windowStart then assocErase st token else st
    | none => st
  let st2 :=
    if cfg.uniqueTokenPerInterval ≤ st1.length then rlCleanup st1 windowStart 0 else st1
  if cfg.uniqueTokenPerInterval ≤ st2.length then
    (.error .tooManyUniqueTokens, st2)
  else
    let cur := (assocFind st2 token).getD ⟨0, now, now⟩
    let cur := if cur.lastAttempt < windowStart then { cur with count := 0, windowStart := now } else cur
    let cur := { cur with count := cur.count + 1, lastAttempt := now }
    let st3 := assocSet st2 token cur
    if limit < cur.count then
      (.error (.rateLimitExceeded cur.count limit (cur.windowStart + cfg.interval)), st3)
    else
      (.ok ⟨cur.count, (limit : Int) - (cur.count : Int), cur.windowStart + cfg.interval⟩, st3)

/-- JavaScript runtime errors relevant here. -/
inductive JsError where
  | referenceErrorLimitUndefined
deriving DecidableEq, Repr

/-- Resolution of the free identifier `limit` inside `getStatus`: the
`rateLimit` closure binds only `interval` and `uniqueTokenPerInterval`
(`limit` is a parameter of `check` alone), and no enclosing scope binds
`limit`, so the identifier does not resolve. -/
def rateLimitScopeLimit : Option Nat := none

/-- `getStatus(token)` as written in the source: each of its three return
paths reads the identifier `limit`, which is unbound in its scope chain, so
evaluation raises a `ReferenceError` before producing a status object.  The
map `st` is only read, never written. -/
def getStatus (cfg : RLConfig) (token : String) (now : Int) (st : RLState) :
    Except JsError RLResult :=
  let tokenAttempts := assocFind st token
  match tokenAttempts with
  | none =>
    match rateLimitScopeLimit with
    | none => .error .referenceErrorLimitUndefined
    | some limit => .ok ⟨0, (limit : Int), now + cfg.interval⟩
  | some e =>
    let windowStart := now - cfg.interval
    if e.lastAttempt < windowStart then
      match rateLimitScopeLimit with
      | none => .error .referenceErrorLimitUndefined
      | some limit => .ok ⟨0, (limit : Int), now + cfg.interval⟩
    else
      match rateLimitScopeLimit with
      | none => .error .referenceErrorLimitUndefined
      | some limit => .ok ⟨e.count, max 0 ((limit : Int) - (e.count : Int)), e.windowStart + cfg.interval⟩

/-- The `attempts` map after `n` successive `check cfg limit token now` calls
starting from the empty map. -/
def checkStateAfter (cfg : RLConfig) (limit : Nat) (token : String) (now : Int) : Nat → RLState
  | 0 => []
  | n + 1 => (check cfg limit token now (checkStateAfter cfg limit token now n)).2

/-- The outcome of the `(n+1)`-th of those calls. -/
def checkCallResult (cfg : RLConfig) (limit : Nat) (token : String) (now : Int) (n : Nat) :
    Except RLError RLResult :=
  (check cfg limit token now (checkStateAfter cfg limit token now n)).1

theorem check_from_empty (cfg : RLConfig) (limit : Nat) (token : String) (now : Int)
    (hI : 0 ≤ cfg.interval) (hU : 2 ≤ cfg.uniqueTokenPerInterval) :
    check cfg limit token now [] =
      (if limit < 1 then .error (.rateLimitExceeded 1 limit (now + cfg.interval))
       else .ok ⟨1, (limit : Int) - 1, now + cfg.interval⟩,
       [(token, ⟨1, now, now⟩)]) := by
  have hu0 : ¬ (cfg.uniqueTokenPerInterval ≤ 0) := by omega
  have hu0' : cfg.uniqueTokenPerInterval ≠ 0 := by omega
  have hfresh : ¬ ((now : Int) < now - cfg.interval) := by omega
  simp [check, assocFind, assocSet, hu0, hu0', hfresh]
  split <;> rfl

theorem check_fresh_entry (cfg : RLConfig) (limit : Nat) (token : String) (now : Int)
    (e : RLEntry) (hfresh : ¬ e.lastAttempt < now - cfg.interval)
    (hU : 2 ≤ cfg.uniqueTokenPerInterval) :
    check cfg limit token now [(token, e)] =
      (if limit < e.count + 1 then
        .error (.rateLimitExceeded (e.count + 1) limit (e.windowStart + cfg.interval))
       else .ok ⟨e.count + 1, (limit : Int) - ((e.count : Int) + 1), e.windowStart + cfg.interval⟩,
       [(token, ⟨e.count + 1, now, e.windowStart⟩)]) := by
  have hu1 : ¬ (cfg.uniqueTokenPerInterval ≤ 1) := by omega
  simp [check, assocFind, assocSet, hfresh, hu1]
  ring_nf
  split <;> rfl

theorem checkStateAfter_succ_eq (cfg : RLConfig) (hI : 0 ≤ cfg.interval)
    (hU : 2 ≤ cfg.uniqueTokenPerInterval) (limit : Nat) (token : String) (now : Int) :
    ∀ n : Nat, checkStateAfter cfg limit token now (n + 1) = [(token, ⟨n + 1, now, now⟩)] := by
  intro n
  induction n with
  | zero =>
    show (check cfg limit token now (checkStateAfter cfg limit token now 0)).2 = _
    rw [show checkStateAfter cfg limit token now 0 = [] from rfl]
    rw [check_from_empty cfg limit token now hI hU]
  | succ n ih =>
    show (check cfg limit token now (checkStateAfter cfg limit token now (n + 1))).2 = _
    rw [ih]
    have hfresh : ¬ ((⟨n + 1, now, now⟩ : RLEntry).lastAttempt < now - cfg.interval) := by
      show ¬ ((now : Int) < now - cfg.interval); omega
    rw [check_fresh_entry cfg limit token now ⟨n + 1, now, now⟩ hfresh hU]

/-- Claim C2: for every identifier and every positive limit, starting from no
entry for that identifier, calling `check(limit, id)` exactly `limit` times
within one window succeeds on every call (returning `count` equal to the
call's ordinal and non-negative `remaining`), and the `(limit+1)`-th call
within the same window fails with a rate-limit-exceeded error. -/
theorem check_succeeds_up_to_limit_then_rejects (cfg : RLConfig) (hI : 0 ≤ cfg.interval)
    (hU : 2 ≤ cfg.uniqueTokenPerInterval) (limit : Nat) (hL : 0 < limit)
    (token : String) (now : Int) :
    (∀ n : Nat, n < limit →
      checkCallResult cfg limit token now n =
        .ok ⟨n + 1, (limit : Int) - ((n : Int) + 1), now + cfg.interval⟩ ∧
      0 ≤ (limit : Int) - ((n : Int) + 1)) ∧
    checkCallResult cfg limit token now limit =
      .error (.rateLimitExceeded (limit + 1) limit (now + cfg.interval)) := by
  constructor
  · intro n hn
    match n with
    | 0 =>
      unfold checkCallResult
      rw [show checkStateAfter cfg limit token now 0 = [] from rfl,
        check_from_empty cfg limit token now hI hU]
      have h1 : ¬ limit < 1 := by omega
      refine ⟨?_, by omega⟩
      simp [h1, RLResult.mk.injEq]
    | m + 1 =>
      unfold checkCallResult
      rw [checkStateAfter_succ_eq cfg hI hU limit token now m]
      have hfresh : ¬ ((⟨m + 1, now, now⟩ : RLEntry).lastAttempt < now - cfg.interval) := by
        show ¬ ((now : Int) < now - cfg.interval); omega
      rw [check_fresh_entry cfg limit token now ⟨m + 1, now, now⟩ hfresh hU]
      have h1 : ¬ limit < (m + 1) + 1 := by omega
      refine ⟨?_, by push_cast; omega⟩
      simp [h1, RLResult.mk.injEq]
  · obtain ⟨m, rfl⟩ : ∃ m, limit = m + 1 := ⟨limit - 1, by omega⟩
    unfold checkCallResult
    rw [checkStateAfter_succ_eq cfg hI hU (m + 1) token now m]
    have hfresh : ¬ ((⟨m + 1, now, now⟩ : RLEntry).lastAttempt < now - cfg.interval) := by
      show ¬ ((now : Int) < now - cfg.interval); omega
    rw [check_fresh_entry cfg (m + 1) token now ⟨m + 1, now, now⟩ hfresh hU]
    have h1 : (m + 1) < (m + 1) + 1 := by omega
    simp [h1]

/-- Concrete instance of `check_succeeds_up_to_limit_then_rejects` at
`interval = 60000`, `uniqueTokenPerInterval = 500`, `limit = 3`. -/
theorem check_succeeds_up_to_limit_then_rejects_witness :
    checkCallResult ⟨60000, 500⟩ 3 "user" 0 0 = .ok ⟨1, 2, 60000⟩ ∧
    checkCallResult ⟨60000, 500⟩ 3 "user" 0 3 =
      .error (.rateLimitExceeded 4 3 60000) := by
  have h := check_succeeds_up_to_limit_then_rejects ⟨60000, 500⟩ (by norm_num) (by norm_num)
    3 (by norm_num) "user" 0
  refine ⟨?_, ?_⟩
  · have h0 := (h.1 0 (by norm_num)).1
    simpa using h0
  · simpa using h.2

/-- Claim C8: `getStatus` reads the identifier `limit`, which is unbound in
its scope (only `check` receives `limit` as a parameter), so every call
raises a `ReferenceError` instead of returning a status record; the map is
never written by it. -/
theorem getStatus_throws_referenceError (cfg : RLConfig) (token : String) (now : Int)
    (st : RLState) :
    getStatus cfg token now st = .error .referenceErrorLimitUndefined := by
  unfold getStatus rateLimitScopeLimit
  cases assocFind st token with
  | none => rfl
  | some e => by_cases h : e.lastAttempt < now - cfg.interval <;> simp [h]

/-- Claim C10: a `check` call that fails with the rate-limit error has
already incremented the entry's count and set `lastAttempt` to `now` before
throwing; as long as successive calls stay less than `interval` apart the
entry is never reset (its `windowStart` is untouched), so every call past
the limit keeps failing — with no upper bound on `now`, in particular at
times later than the `resetTime` reported in the error. -/
theorem check_failure_increments_and_never_resets (cfg : RLConfig) (st : RLState)
    (token : String) (now : Int) (limit : Nat) (e : RLEntry)
    (hfind : assocFind st token = some e)
    (hfresh : ¬ e.lastAttempt < now - cfg.interval)
    (hsize : st.length < cfg.uniqueTokenPerInterval)
    (hcount : limit ≤ e.count) :
    (check cfg limit token now st).1 =
      .error (.rateLimitExceeded (e.count + 1) limit (e.windowStart + cfg.interval)) ∧
    assocFind (check cfg limit token now st).2 token =
      some ⟨e.count + 1, now, e.windowStart⟩ := by
  have hu : ¬ (cfg.uniqueTokenPerInterval ≤ st.length) := by omega
  have hlt : limit < e.count + 1 := by omega
  simp [check, hfind, hfresh, hu, hlt, assocFind_set_self]

/-- Concrete instance of `check_failure_increments_and_never_resets` where
the call happens at `now = 1700000`, later than the reported reset time
`900000`, and still fails while bumping the stored entry. -/
theorem check_failure_increments_and_never_resets_witness :
    (check ⟨900000, 500⟩ 5 "u" 1700000 [("u", ⟨5, 1000000, 0⟩)]).1 =
      .error (.rateLimitExceeded 6 5 900000) ∧
    assocFind (check ⟨900000, 500⟩ 5 "u" 1700000 [("u", ⟨5, 1000000, 0⟩)]).2 "u" =
      some ⟨6, 1700000, 0⟩ ∧
    (0 : Int) + 900000 < 1700000 := by
  have h := check_failure_increments_and_never_resets ⟨900000, 500⟩
    [("u", ⟨5, 1000000, 0⟩)] "u" 1700000 5 ⟨5, 1000000, 0⟩ rfl (by norm_num)
    (by norm_num) (by norm_num)
  refine ⟨by simpa using h.1, by simpa using h.2, by norm_num⟩

/-! ## Server requester (`lib/api-optimized.js`)

`serverRequest` wraps `fetch` in a retry loop `for attempt = 0 .. retries`.
Non-OK statuses are classified (`404 -> NOT_FOUND`, `408/504 -> TIMEOUT`,
otherwise `SERVER_ERROR`) and thrown as typed `APIError`s; aborts throw a
timeout immediately; `NOT_FOUND` is never retried; on the last attempt the
last error is rethrown (wrapped as `SERVER_ERROR` only if it was untyped).
The network is an oracle mapping the attempt index to a fetch outcome. -/

/-- The `API_ERRORS` enumeration. -/
inductive APIErrorType where
  | timeout
  | network
  | notFound
  | serverError
  | invalidResponse
deriving DecidableEq, Repr

/-- The `APIError` class (message, type, status). -/
structure APIError where
  message : String
  type : APIErrorType
  status : Option Nat
deriving DecidableEq, Repr

/-- What a single `fetch` attempt can produce. -/
inductive FetchOutcome (α : Type) where
  | ok (data : α)
  | httpError (status : Nat) (body : String)
  | abortError
  | fetchFailed
  | otherError (message : String)
deriving DecidableEq, Repr

/-- The `switch (response.status)` classification; the `default` branch
leaves the initializer `SERVER_ERROR` in place for every remaining status. -/
def classifyStatus (status : Nat) : APIErrorType :=
  if status = 404 then .notFound
  else if status = 408 ∨ status = 504 then .timeout
  else .serverError

/-- The message `HTTP status: body` attached to a non-OK response. -/
def httpErrorMessage (status : Nat) (body : String) : String :=
  "HTTP " ++ toString status ++ ": " ++ body

/-- One iteration of the retry loop at index `attempt` with
`remaining = retries - attempt` retries left; returns the outcome together
with the total number of fetch attempts performed. -/
def serverRequestAux {α : Type} (fetchO : Nat → FetchOutcome α) :
    Nat → Nat → Except APIError α × Nat
  | attempt, remaining =>
    match fetchO attempt with
    | .ok d => (.ok d, attempt + 1)
    | .abortError => (.error ⟨"Request timeout", .timeout, none⟩, attempt + 1)
    | .httpError s body =>
      let e : APIError := ⟨httpErrorMessage s body, classifyStatus s, some s⟩
      if e.type = .notFound then (.error e, attempt + 1)
      else
        match remaining with
        | 0 => (.error e, attempt + 1)
        | r + 1 => serverRequestAux fetchO (attempt + 1) r
    | .fetchFailed =>
      let e : APIError := ⟨"Network error - Unable to connect to API", .network, none⟩
      match remaining with
      | 0 => (.error e, attempt + 1)
      | r + 1 => serverRequestAux fetchO (attempt + 1) r
    | .otherError msg =>
      match remaining with
      | 0 => (.error ⟨if msg = "" then "Unknown error" else msg, .serverError, none⟩, attempt + 1)
      | r + 1 => serverRequestAux fetchO (attempt + 1) r

/-- `serverRequest(url, { retries })`: run the loop from attempt 0. -/
def serverRequest {α : Type} (fetchO : Nat → FetchOutcome α) (retries : Nat) :
    Except APIError α × Nat :=
  serverRequestAux fetchO 0 retries

/-- Claim C3: against an endpoint whose every attempt fails with a
`ServerError` classification, a requester configured with `retries = 2`
performs exactly 3 fetch attempts, and the error finally thrown is the typed
`APIError` of the last attempt's classification. -/
theorem serverRequest_serverError_three_attempts {α : Type}
    (fetchO : Nat → FetchOutcome α)
    (h : ∀ i, ∃ s body, fetchO i = .httpError s body ∧ classifyStatus s = .serverError) :
    (serverRequest fetchO 2).2 = 3 ∧
    ∃ s body, fetchO 2 = .httpError s body ∧
      (serverRequest fetchO 2).1 = .error ⟨httpErrorMessage s body, .serverError, some s⟩ := by
  obtain ⟨s0, b0, h0, hc0⟩ := h 0
  obtain ⟨s1, b1, h1, hc1⟩ := h 1
  obtain ⟨s2, b2, h2, hc2⟩ := h 2
  refine ⟨?_, s2, b2, h2, ?_⟩ <;>
    simp [serverRequest, serverRequestAux, h0, h1, h2, hc0, hc1, hc2]

/-- A server that answers HTTP 500 on every attempt. -/
def alwaysServerError : Nat → FetchOutcome Nat :=
  fun _ => .httpError 500 "Internal Server Error"

/-- Concrete instance of `serverRequest_serverError_three_attempts` against
a permanently failing HTTP-500 endpoint. -/
theorem serverRequest_serverError_three_attempts_witness :
    (serverRequest alwaysServerError 2).2 = 3 ∧
    ∃ s body, alwaysServerError 2 = .httpError s body ∧
      (serverRequest alwaysServerError 2).1 =
        .error ⟨httpErrorMessage s body, .serverError, some s⟩ :=
  serverRequest_serverError_three_attempts alwaysServerError
    (fun _ => ⟨500, "Internal Server Error", rfl, by decide⟩)

/-- Claim C7: a response with HTTP status 404 (classified `NotFound`) is
thrown to the caller after exactly one fetch attempt and is never retried,
whatever the configured `retries` count. -/
theorem serverRequest_notFound_single_attempt {α : Type}
    (fetchO : Nat → FetchOutcome α) (body : String)
    (h : fetchO 0 = .httpError 404 body) (retries : Nat) :
    (serverRequest fetchO retries).2 = 1 ∧
    (serverRequest fetchO retries).1 =
      .error ⟨httpErrorMessage 404 body, .notFound, some 404⟩ := by
  constructor <;> simp [serverRequest, serverRequestAux, h, classifyStatus]

/-- A server that answers HTTP 404 on every attempt. -/
def always404 : Nat → FetchOutcome Nat := fun _ => .httpError 404 "Not Found"

/-- Concrete instance of `serverRequest_notFound_single_attempt` with
`retries = 5`. -/
theorem serverRequest_notFound_single_attempt_witness :
    (serverRequest always404 5).2 = 1 ∧
    (serverRequest always404 5).1 =
      .error ⟨httpErrorMessage 404 "Not Found", .notFound, some 404⟩ :=
  serverRequest_notFound_single_attempt always404 "Not Found" rfl 5

/-! ## Product-by-id accessor (`lib/api-optimized.js`, `serverGetProductById`) -/

/-- JavaScript truthiness of an optional numeric field: absent, null and 0
are falsy. -/
def jsTruthyNum : Option Nat → Bool
  | none => false
  | some n => n != 0

/-- JavaScript truthiness of an optional string field: absent, null and the
empty string are falsy. -/
def jsTruthyStr : Option String → Bool
  | none => false
  | some s => s != ""

/-- The fields of the upstream product document that the accessor
validates. -/
structure ProductDoc where
  productId : Option Nat
  name : Option String
deriving DecidableEq, Repr

/-- A repository-level response cache state, threaded through the accessor
to record that this code path never writes one (the `next.revalidate`
option handed to `fetch` is a framework directive, not a write performed by
this module, and the only explicit cache in the repository —
`OptimizedApiClient.cache` in `lib/api/client.js` — is not referenced
here). -/
abbrev ApiCache := List (String × ProductDoc)

/-- `serverGetProductById(id, locale)`: reject a falsy or non-numeric id
(over numeric ids, `!id || isNaN(Number(id))` reduces to `id = 0`), issue
the `serverGet` (default `retries = 1`), rethrow any `APIError`, reject a
null or non-object body, then reject a document whose `productId` or `name`
is falsy — all before returning, and without any cache write. -/
def serverGetProductById (id : Nat) (fetchO : Nat → FetchOutcome (Option ProductDoc))
    (cache : ApiCache) : Except APIError ProductDoc × ApiCache :=
  if id = 0 then (.error ⟨"Invalid product ID", .invalidResponse, none⟩, cache)
  else
    match (serverRequest fetchO 1).1 with
    | .error e => (.error e, cache)
    | .ok none => (.error ⟨"Invalid product data received", .invalidResponse, none⟩, cache)
    | .ok (some d) =>
      if !(jsTruthyNum d.productId) || !(jsTruthyStr d.name) then
        (.error ⟨"Product data is incomplete", .invalidResponse, none⟩, cache)
      else (.ok d, cache)

/-- Claim C4: an upstream product document missing the required `productId`
or `name` field makes `serverGetProductById` fail with an
`InvalidResponse`-typed error, and the malformed document is never written
to any cache (the cache state is returned unchanged). -/
theorem serverGetProductById_malformed_not_cached (id : Nat) (hid : id ≠ 0)
    (fetchO : Nat → FetchOutcome (Option ProductDoc)) (cache : ApiCache) (d : ProductDoc)
    (hok : (serverRequest fetchO 1).1 = .ok (some d))
    (hmal : jsTruthyNum d.productId = false ∨ jsTruthyStr d.name = false) :
    serverGetProductById id fetchO cache =
      (.error ⟨"Product data is incomplete", .invalidResponse, none⟩, cache) := by
  rcases hmal with hm | hm <;> simp [serverGetProductById, hid, hok, hm]

/-- A fetch whose body is a document with a `name` but no `productId`. -/
def malformedProductFetch : Nat → FetchOutcome (Option ProductDoc) :=
  fun _ => .ok (some ⟨none, some "Lipstick"⟩)

/-- Concrete instance of `serverGetProductById_malformed_not_cached` at
`id = 7` on an empty cache. -/
theorem serverGetProductById_malformed_not_cached_witness :
    serverGetProductById 7 malformedProductFetch [] =
      (.error ⟨"Product data is incomplete", .invalidResponse, none⟩, []) :=
  serverGetProductById_malformed_not_cached 7 (by decide) malformedProductFetch []
    ⟨none, some "Lipstick"⟩ rfl (Or.inl rfl)

/-! ## NextAuth session callback (`app/api/auth/[...nextauth]/route.js`)

The `session({ session, token })` callback builds the object served to the
client by `/api/auth/session`: it returns `null` for a missing or
token-free JWT or an expired one, copies the profile fields into
`session.user` — and then assigns `session.accessToken =
token.accessToken` despite the adjacent comment saying the access token
must not be exposed to the client-side session. -/

/-- JavaScript truthiness of an optional numeric timestamp. -/
def jsTruthyInt : Option Int → Bool
  | none => false
  | some e => e != 0

/-- The server-held JWT produced by the `jwt` callback. -/
structure JwtToken where
  id : String
  mobile : String
  firstName : String
  lastName : String
  address : Option String
  accessToken : Option String
  tokenIssuedAt : Option Int
  tokenExpiresAt : Option Int
deriving DecidableEq, Repr

/-- The `session.user` block assembled by the callback. -/
structure SessionUser where
  id : String
  mobile : String
  firstName : String
  lastName : String
  address : Option String
deriving DecidableEq, Repr

/-- The session object returned by the callback (what the client sees). -/
structure ClientSession where
  user : SessionUser
  accessToken : String
  tokenExpiresAt : Option Int
deriving DecidableEq, Repr

/-- The `session` callback at time `now`: `null` when the token or its
`accessToken` is falsy or the token is past `tokenExpiresAt`, otherwise the
populated session — including `accessToken`. -/
def sessionCallback (token : Option JwtToken) (now : Int) : Option ClientSession :=
  match token with
  | none => none
  | some t =>
    match t.accessToken with
    | none => none
    | some a =>
      if a = "" then none
      else if jsTruthyInt t.tokenExpiresAt && (t.tokenExpiresAt.getD 0 < now) then none
      else some ⟨⟨t.id, t.mobile, t.firstName, t.lastName, t.address⟩, a, t.tokenExpiresAt⟩

/-- A valid authenticated JWT holding a bearer token. -/
def demoJwtToken : JwtToken :=
  ⟨"42", "01001234567", "Mona", "Ali", none, some "secret-bearer-token", some 1000, some 2000⟩

/-- Claim C1 (refuted by the code): the session callback does not strip the
bearer token — for the concrete authenticated token `demoJwtToken`,
evaluated before its expiry, the client-visible session object carries
`accessToken = "secret-bearer-token"` verbatim. -/
theorem sessionCallback_exposes_access_token :
    sessionCallback (some demoJwtToken) 1500 =
      some ⟨⟨"42", "01001234567", "Mona", "Ali", none⟩, "secret-bearer-token", some 2000⟩ := by
  decide

/-! ## Cached API client (`lib/api/client.js`)

`OptimizedApiClient.cachedRequest(url, options)` keys the instance Map
`this.cache` by `url + '-' + JSON.stringify(options)` (the serialized
options are passed here as an opaque string).  A present key returns the
stored value immediately; otherwise one fetch runs and a successful JSON
body is stored.  No timestamp is recorded and no entry is ever deleted or
expired by this class; the `next.revalidate: 300` option is handed to the
framework's fetch and is not consulted on the Map-hit path. -/

/-- The errors `cachedRequest` can rethrow (`HTTP error! status: ...` or a
failed fetch). -/
inductive ClientFetchError where
  | httpStatus (status : Nat)
  | networkFailure
deriving DecidableEq, Repr

/-- `cachedRequest` at wall-clock time `_now` (never read by the source —
the Map lookup is unconditional), given the outcome one fetch would have.
Returns the result, the updated Map, and the number of upstream calls this
invocation made (0 or 1). -/
def cachedRequest {α : Type} (_now : Int) (fetchResult : FetchOutcome α) (url opts : String)
    (cache : List (String × α)) : Except ClientFetchError α × List (String × α) × Nat :=
  let cacheKey := url ++ "-" ++ opts
  match assocFind cache cacheKey with
  | some v => (.ok v, cache, 0)
  | none =>
    match fetchResult with
    | .ok d => (.ok d, assocSet cache cacheKey d, 1)
    | .httpError s _ => (.error (.httpStatus s), cache, 1)
    | .abortError => (.error .networkFailure, cache, 1)
    | .fetchFailed => (.error .networkFailure, cache, 1)
    | .otherError _ => (.error .networkFailure, cache, 1)

/-- First fetch of a key at time 0: upstream serves 42. -/
def cachedDemoFirst : Except ClientFetchError Nat × List (String × Nat) × Nat :=
  cachedRequest 0 (.ok 42) "https://api.example/products" "opts" []

/-- Second fetch of the same key 301 seconds later — past the 300-second
revalidate TTL — when upstream would now serve 43. -/
def cachedDemoSecond : Except ClientFetchError Nat × List (String × Nat) × Nat :=
  cachedRequest 301000 (.ok 43) "https://api.example/products" "opts" cachedDemoFirst.2.1

/-- Claim C5 counterexample: a fetch of a cached key after TTL expiry makes
no second upstream call (0, not 1) and returns the stale stored value 42,
not the fresh upstream value 43 — the Map has no expiry. -/
theorem cachedRequest_ttl_expiry_counterexample :
    cachedDemoFirst.2.2 = 1 ∧
    cachedDemoSecond.2.2 = 0 ∧
    cachedDemoSecond.1 = .ok 42 ∧ ¬ cachedDemoSecond.1 = .ok 43 := by
  refine ⟨rfl, ?_, ?_, ?_⟩ <;>
    simp [cachedDemoSecond, cachedDemoFirst, cachedRequest, assocFind, assocSet]

/-- Claim C5 (amended): two successful fetches of the same key issue
exactly one upstream call, the second returning the stored value — and
this holds at every pair of call times, in particular past the TTL, since
`cachedRequest` never expires entries. -/
theorem cachedRequest_single_upstream_call {α : Type} (now1 now2 : Int) (d : α)
    (f2 : FetchOutcome α) (url opts : String) (cache : List (String × α))
    (hmiss : assocFind cache (url ++ "-" ++ opts) = none) :
    (cachedRequest now1 (.ok d) url opts cache).2.2 = 1 ∧
    (cachedRequest now2 f2 url opts (cachedRequest now1 (.ok d) url opts cache).2.1).2.2 = 0 ∧
    (cachedRequest now2 f2 url opts (cachedRequest now1 (.ok d) url opts cache).2.1).1 = .ok d := by
  simp [cachedRequest, hmiss, assocFind_set_self]

/-- Concrete instance of `cachedRequest_single_upstream_call` on an empty
cache with the second call far past the TTL. -/
theorem cachedRequest_single_upstream_call_witness :
    (cachedRequest 0 (.ok (42 : Nat)) "u" "o" []).2.2 = 1 ∧
    (cachedRequest 1000000000 (.ok 43) "u" "o"
      (cachedRequest 0 (.ok (42 : Nat)) "u" "o" []).2.1).2.2 = 0 ∧
    (cachedRequest 1000000000 (.ok 43) "u" "o"
      (cachedRequest 0 (.ok (42 : Nat)) "u" "o" []).2.1).1 = .ok 42 :=
  cachedRequest_single_upstream_call 0 1000000000 42 (.ok 43) "u" "o" [] rfl

/-! ## Logout bridge (`utils/auth.utils.js`, `invalidateTokenOnAPI` in the
NextAuth route)

`AuthUtils.logout(options)` clears the enumerated client storage keys (when
`clearStorage`, default `true`), then runs NextAuth `signOut` — whose
`signOut` event calls `invalidateTokenOnAPI`, a best-effort fetch whose
`try/catch` swallows every upstream error.  If `signOut` itself throws, the
catch block clears storage again and rethrows. -/

/-- The `authKeys` list removed from `localStorage`. -/
def authStorageKeys : List String :=
  ["next-auth.session-token", "next-auth.csrf-token", "next-auth.callback-url",
   "profile-completed", "user-preferences", "cart-items", "recent-searches"]

/-- Client-side storage visible to the logout path. -/
structure ClientStorage where
  localStorage : List (String × String)
  sessionStorage : List (String × String)
  cacheNames : List String
deriving DecidableEq, Repr

/-- `AuthUtils.clearClientStorage()`: remove each enumerated key from
`localStorage`, clear `sessionStorage`, delete every named cache. -/
def clearClientStorage (st : ClientStorage) : ClientStorage :=
  { localStorage := st.localStorage.filter (fun kv => decide (kv.1 ∉ authStorageKeys))
  , sessionStorage := []
  , cacheNames := [] }

/-- `invalidateTokenOnAPI(token)`: the upstream call's outcome is swallowed
by its own `try/catch`, so the bridge always continues. -/
def invalidateTokenOnAPI (_upstream : Except String Unit) : Except String Unit := .ok ()

/-- The options record of `AuthUtils.logout` with its defaults. -/
structure LogoutOptions where
  callbackUrl : String
  redirect : Bool
  clearStorage : Bool
deriving DecidableEq, Repr

/-- The defaults `callbackUrl = '/signin'`, `redirect = true`,
`clearStorage = true`. -/
def defaultLogoutOptions : LogoutOptions := ⟨"/signin", true, true⟩

/-- `AuthUtils.logout(options)` given the upstream invalidation outcome and
an optional failure of `signOut` itself (upstream failures never propagate,
since `invalidateTokenOnAPI` swallows them): clear storage (when enabled),
sign out, and on a `signOut` throw clear again and rethrow. -/
def logout (opts : LogoutOptions) (upstream : Except String Unit)
    (signOutFailure : Option String) (st : ClientStorage) :
    Except String String × ClientStorage :=
  let st1 := if opts.clearStorage then clearClientStorage st else st
  let _ := invalidateTokenOnAPI upstream
  match signOutFailure with
  | none => (.ok opts.callbackUrl, st1)
  | some e =>
    let st2 := if opts.clearStorage then clearClientStorage st1 else st1
    (.error e, st2)

theorem clearClientStorage_removes (st : ClientStorage) (k v : String)
    (hk : k ∈ authStorageKeys) : (k, v) ∉ (clearClientStorage st).localStorage := by
  intro hmem
  simp [clearClientStorage, List.mem_filter] at hmem
  exact hmem.2 hk

/-- A storage state holding only the cart snapshot. -/
def cartOnlyStorage : ClientStorage := ⟨[("cart-items", "two lipsticks")], [], []⟩

/-- Claim C6 counterexample: a logout invocation that passes
`clearStorage: false`, while the upstream invalidation fails and `signOut`
throws, leaves the enumerated key `cart-items` in local storage — so not
every logout invocation clears the keys. -/
theorem logout_clear_optout_counterexample :
    ("cart-items", "two lipsticks") ∈
      (logout ⟨"/signin", true, false⟩ (.error "upstream timeout") (some "signOut failed")
        cartOnlyStorage).2.localStorage := by
  simp [logout, cartOnlyStorage]

/-- Claim C6 (amended): every logout invocation that leaves storage
clearing enabled (its default) removes all enumerated keys from local
storage, even when the upstream token-invalidation call fails and even when
`signOut` itself throws — upstream failure never blocks local teardown. -/
theorem logout_clears_enumerated_keys (opts : LogoutOptions)
    (h : opts.clearStorage = true) (upstream : Except String Unit)
    (signOutFailure : Option String) (st : ClientStorage) :
    ∀ k ∈ authStorageKeys, ∀ v,
      (k, v) ∉ (logout opts upstream signOutFailure st).2.localStorage := by
  intro k hk v
  cases signOutFailure with
  | none => simpa [logout, h] using clearClientStorage_removes st k v hk
  | some e =>
    simpa [logout, h] using clearClientStorage_removes (clearClientStorage st) k v hk

/-- Concrete instance of `logout_clears_enumerated_keys` with default
options, a failing upstream invalidation and a throwing `signOut`. -/
theorem logout_clears_enumerated_keys_witness :
    ("cart-items", "two lipsticks") ∉
      (logout defaultLogoutOptions (.error "upstream timeout") (some "signOut failed")
        cartOnlyStorage).2.localStorage :=
  logout_clears_enumerated_keys defaultLogoutOptions rfl (.error "upstream timeout")
    (some "signOut failed") cartOnlyStorage "cart-items" (by simp [authStorageKeys])
    "two lipsticks"

/-! ## Auth orchestrator (`useAuth`) and `checkRateLimit` (`utils/validation.js`)

`checkRateLimit(identifier)` builds a limiter over the shared `attempts`
map with `interval = 15 * 60 * 1000` and checks `limit = 5`; any thrown
error is caught and replaced by a fixed rejection message.  The `useAuth`
actions are modelled with an effect trace recording, in order, the limiter
consultations and upstream network calls they perform; the upstream phase
itself is an oracle `svc`. -/

/-- The limiter options used by `checkRateLimit`. -/
def validationRLConfig : RLConfig := ⟨900000, 500⟩

/-- The fixed rejection message returned by `checkRateLimit`. -/
def rateLimitRejectionMessage : String :=
  "تم تجاوز عدد المحاولات المسموحة، حاول بعد 15 دقيقة"

/-- The `{ allowed, message }` record returned by `checkRateLimit`. -/
structure RateCheckOutcome where
  allowed : Bool
  message : Option String
deriving DecidableEq, Repr

/-- `checkRateLimit(identifier)` over the shared map. -/
def checkRateLimit (identifier : String) (now : Int) (st : RLState) :
    RateCheckOutcome × RLState :=
  match check validationRLConfig 5 identifier now st with
  | (.ok _, st') => (⟨true, none⟩, st')
  | (.error _, st') => (⟨false, some rateLimitRejectionMessage⟩, st')

theorem checkRateLimit_rejected (identifier : String) (now : Int) (st : RLState)
    (h : (checkRateLimit identifier now st).1.allowed = false) :
    (checkRateLimit identifier now st).1.message = some rateLimitRejectionMessage := by
  unfold checkRateLimit at h ⊢
  cases hc : check validationRLConfig 5 identifier now st with
  | mk res st' =>
    cases res <;> simp_all

/-- An observable effect of an orchestrator action. -/
inductive AuthEffect where
  | rateCheck (identifier : String)
  | network (endpoint : String)
deriving DecidableEq, Repr

/-- Result, final shared-limiter state and ordered effect trace of one
orchestrator action. -/
structure AuthOutcome where
  result : Except String Unit
  rlState : RLState
  trace : List AuthEffect
deriving Repr

/-- `login(mobile, password)`: consult the limiter under `login:<mobile>`;
on rejection surface the limiter's message and return before any network
call; otherwise call `AuthService.loginWithPassword`. -/
def login (mobile : String) (svc : Except String Unit) (now : Int) (st : RLState) :
    AuthOutcome :=
  let rc := (checkRateLimit ("login:" ++ mobile) now st).1
  let st' := (checkRateLimit ("login:" ++ mobile) now st).2
  if rc.allowed then
    ⟨svc, st', [.rateCheck ("login:" ++ mobile), .network "loginWithPassword"]⟩
  else
    ⟨.error (rc.message.getD ""), st', [.rateCheck ("login:" ++ mobile)]⟩

/-- `signup(mobile)`: limiter under `signup:<mobile>`, then
`AuthService.signUpWithMobile`. -/
def signup (mobile : String) (svc : Except String Unit) (now : Int) (st : RLState) :
    AuthOutcome :=
  let rc := (checkRateLimit ("signup:" ++ mobile) now st).1
  let st' := (checkRateLimit ("signup:" ++ mobile) now st).2
  if rc.allowed then
    ⟨svc, st', [.rateCheck ("signup:" ++ mobile), .network "signUpWithMobile"]⟩
  else
    ⟨.error (rc.message.getD ""), st', [.rateCheck ("signup:" ++ mobile)]⟩

/-- `verifyOTP(userId, otp)`: limiter under `otp:<userId>`, then
`AuthService.verifyOTP`. -/
def verifyOTP (userId : String) (_otpCode : String) (svc : Except String Unit)
    (now : Int) (st : RLState) : AuthOutcome :=
  let rc := (checkRateLimit ("otp:" ++ userId) now st).1
  let st' := (checkRateLimit ("otp:" ++ userId) now st).2
  if rc.allowed then
    ⟨svc, st', [.rateCheck ("otp:" ++ userId), .network "verifyOTP"]⟩
  else
    ⟨.error (rc.message.getD ""), st', [.rateCheck ("otp:" ++ userId)]⟩

/-- `setPassword(userId, password)` as written: it calls
`AuthService.setPassword` directly, with no `checkRateLimit` call. -/
def setPassword (_userId : String) (_password : String) (svc : Except String Unit)
    (_now : Int) (st : RLState) : AuthOutcome :=
  ⟨svc, st, [.network "setPassword"]⟩

/-- `setPersonalInfo(token, personalData)` as written: it calls
`AuthService.setPersonalInfo` directly, with no `checkRateLimit` call. -/
def setPersonalInfo (_token : String) (svc : Except String Unit) (_now : Int)
    (st : RLState) : AuthOutcome :=
  ⟨svc, st, [.network "setPersonalInfo"]⟩

/-- A shared rate-limit map whose action-scoped identifiers are already at
the limit of 5. -/
def exhaustedRL : RLState :=
  [("login:0100", ⟨5, 0, 0⟩), ("signup:0100", ⟨5, 0, 0⟩), ("otp:u1", ⟨5, 0, 0⟩)]

/-- Claim C9 counterexample: `setPassword` performs its upstream network
call with no rate-limiter consultation at all — even over a map whose
identifiers are exhausted — so not every orchestrator action invokes the
limiter before its network call. -/
theorem setPassword_skips_rate_limiter :
    (¬ ∃ i, AuthEffect.rateCheck i ∈
      (setPassword "u1" "Passw0rd" (.ok ()) 0 exhaustedRL).trace) ∧
    AuthEffect.network "setPassword" ∈
      (setPassword "u1" "Passw0rd" (.ok ()) 0 exhaustedRL).trace := by
  constructor
  · rintro ⟨i, hi⟩
    simp [setPassword] at hi
  · simp [setPassword]

/-- Claim C9 (amended): `login`, `signup` and `verifyOTP` consult the rate
limiter with an action-scoped identifier as their first effect and, on
limiter rejection, surface the limiter's message and finish without any
network effect; `setPassword` and `setPersonalInfo` call upstream with no
limiter check. -/
theorem auth_actions_rate_limit_guard (mobile userId otpCode pw tok : String)
    (svc : Except String Unit) (now : Int) (st : RLState) :
    ((login mobile svc now st).trace.head? = some (.rateCheck ("login:" ++ mobile))) ∧
    ((checkRateLimit ("login:" ++ mobile) now st).1.allowed = false →
      (login mobile svc now st).trace = [.rateCheck ("login:" ++ mobile)] ∧
      (login mobile svc now st).result = .error rateLimitRejectionMessage) ∧
    ((signup mobile svc now st).trace.head? = some (.rateCheck ("signup:" ++ mobile))) ∧
    ((checkRateLimit ("signup:" ++ mobile) now st).1.allowed = false →
      (signup mobile svc now st).trace = [.rateCheck ("signup:" ++ mobile)] ∧
      (signup mobile svc now st).result = .error rateLimitRejectionMessage) ∧
    ((verifyOTP userId otpCode svc now st).trace.head? = some (.rateCheck ("otp:" ++ userId))) ∧
    ((checkRateLimit ("otp:" ++ userId) now st).1.allowed = false →
      (verifyOTP userId otpCode svc now st).trace = [.rateCheck ("otp:" ++ userId)] ∧
      (verifyOTP userId otpCode svc now st).result = .error rateLimitRejectionMessage) ∧
    ((setPassword userId pw svc now st).trace = [.network "setPassword"]) ∧
    ((setPersonalInfo tok svc now st).trace = [.network "setPersonalInfo"]) := by
  refine ⟨?_, ?_, ?_, ?_, ?_, ?_, rfl, rfl⟩
  · by_cases hA : (checkRateLimit ("login:" ++ mobile) now st).1.allowed <;> simp [login, hA]
  · intro h
    have hm := checkRateLimit_rejected ("login:" ++ mobile) now st h
    simp [login, h, hm]
  · by_cases hA : (checkRateLimit ("signup:" ++ mobile) now st).1.allowed <;> simp [signup, hA]
  · intro h
    have hm := checkRateLimit_rejected ("signup:" ++ mobile) now st h
    simp [signup, h, hm]
  · by_cases hA : (checkRateLimit ("otp:" ++ userId) now st).1.allowed <;> simp [verifyOTP, hA]
  · intro h
    have hm := checkRateLimit_rejected ("otp:" ++ userId) now st h
    simp [verifyOTP, h, hm]

/-- Concrete instance of `auth_actions_rate_limit_guard` over the exhausted
map: the rejected `login` surfaces the limiter's message and performs no
network call, while `setPassword` still goes straight to the network. -/
theorem auth_actions_rate_limit_guard_witness :
    (login "0100" (.ok ()) 0 exhaustedRL).trace = [.rateCheck ("login:" ++ "0100")] ∧
    (login "0100" (.ok ()) 0 exhaustedRL).result = .error rateLimitRejectionMessage ∧
    (setPassword "u1" "Passw0rd" (.ok ()) 0 exhaustedRL).trace = [.network "setPassword"] := by
  have h := auth_actions_rate_limit_guard "0100" "u1" "123456" "Passw0rd" "tok" (.ok ()) 0
    exhaustedRL
  have hrej : (checkRateLimit ("login:" ++ "0100") 0 exhaustedRL).1.allowed = false := by
    decide
  have h2 := h.2.1 hrej
  exact ⟨h2.1, h2.2, h.2.2.2.2.2.2.1⟩
